import Mathlib

/-!
Verification of the `simple-web-asr` web application (`src/main.go`).

The Go program is shallowly embedded: the two database tables become Lean
lists of rows kept in primary-key order, the gin handlers become pure
functions from a request and the current store to a response and the new
store, and the few external primitives the handlers call (bcrypt, UUID
generation, email dispatch) are modelled as explicit parameters or small
pure functions, documented at their definitions.
-/

namespace SimpleWebASR

/-- Row of the `users` table (`model.User`).  Modelled from the spec (§3):
the `model` package is not part of `src/`; the field set is the one
`main.go` reads and writes (`ID`, `Email`, `Password`, `Token`, `Status`),
with Go zero values (`0`, `""`) for fields a literal leaves unset. -/
structure User where
  id : Nat
  email : String
  password : String
  token : String
  status : Nat
deriving Repr, DecidableEq

/-- Row of the `recordings` table (`model.Recording`).  Modelled from the
spec (§3): the `model` package is not part of `src/`; the fields are the
ones `main.go` uses (`ID`, `UserID`, `Title`, `Filename`, `Language`,
`Status`). -/
structure Recording where
  id : Nat
  userID : Nat
  title : String
  filename : String
  language : String
  status : Nat
deriving Repr, DecidableEq

/-- The Go zero value of `model.User`, which is what `db.First`/`db.Where...First`
leave in the destination variable when no row matches. -/
def zeroUser : User := { id := 0, email := "", password := "", token := "", status := 0 }

/-- The Go zero value of `model.Recording`. -/
def zeroRecording : Recording :=
  { id := 0, userID := 0, title := "", filename := "", language := "", status := 0 }

/-- `strings.ToLower` (Go).  Modelled with per-character lowercasing; it
agrees with Go on ASCII, the relevant alphabet for email normalization. -/
def goToLower (s : String) : String := String.mk (s.data.map Char.toLower)

/-- ASCII decimal digit test, as used by `strconv.ParseUint` in base 10. -/
def isDigit (c : Char) : Bool := '0' ≤ c && c ≤ '9'

/-- `strconv.ParseUint(s, 10, 32)` (Go): succeeds exactly on a non-empty
all-digit string whose value fits in 32 bits (no sign, no underscores in
base 10); any error makes the caller abort, so only success/failure and the
value matter. -/
def parseUint32 (s : String) : Option Nat :=
  if s.isEmpty then none
  else if s.toList.all isDigit then
    let n := s.toList.foldl (fun acc c => acc * 10 + (c.toNat - '0'.toNat)) 0
    if n < 2 ^ 32 then some n else none
  else none

/-- `filepath.Base` (Go, Unix separator `/`): `""` gives `"."`; trailing
slashes are stripped; a path of only slashes gives `"/"`; otherwise the
last path element is returned. -/
def filepathBase (path : String) : String :=
  if path = "" then "."
  else if path.data.reverse.dropWhile (fun c => c == '/') = [] then "/"
  else String.mk
    ((path.data.reverse.dropWhile (fun c => c == '/')).takeWhile (fun c => c != '/')).reverse

/-- ASCII hexadecimal digit test. -/
def isHexDigit (c : Char) : Bool :=
  ('0' ≤ c && c ≤ '9') || ('a' ≤ c && c ≤ 'f') || ('A' ≤ c && c ≤ 'F')

/-- Split a character list on a separator (semantics of `String.splitOn`
with a one-character separator, over the underlying list). -/
def splitOnChar (sep : Char) : List Char → List (List Char)
  | [] => [[]]
  | c :: cs =>
    let rest := splitOnChar sep cs
    if c = sep then [] :: rest
    else match rest with
      | [] => [[c]]
      | p :: ps => (c :: p) :: ps

/-- `uuid.Parse(token)` succeeding (google/uuid): modelled for the canonical
`8-4-4-4-12` hexadecimal form, the only form the application ever produces
(`uuid.NewRandom().String()`); the library additionally accepts braced, URN
and 32-digit forms, which never arise here. -/
def uuidParseOk (s : String) : Bool :=
  let parts := splitOnChar '-' s.data
  parts.map List.length == [8, 4, 4, 4, 12] && parts.all (fun p => p.all isHexDigit)

/-- `bcrypt.GenerateFromPassword(password, cost)` (golang.org/x/crypto).
Modelled from the spec (§1 places the hashing primitive out of scope): a
deterministic abstraction that records the cost and the password; all that
the claims need is that the result is not the plaintext and that a hash
verifies exactly against the password it was generated from.  The error
return of the real primitive concerns only invalid costs (14 is valid), so
it is not modelled. -/
def bcryptGenerateFromPassword (password : String) (cost : Nat) : String :=
  "$2a$" ++ (toString cost ++ ("$" ++ password))

/-- `bcrypt.CompareHashAndPassword(hash, password) == nil` (true = match).
In the model a hash matches exactly the password it was generated from; the
application generates every stored hash with cost 14 (`hashPassword`). -/
def bcryptCompareHashAndPassword (hash password : String) : Bool :=
  hash == bcryptGenerateFromPassword password 14

/-- `hashPassword` (src/main.go:114): bcrypt with cost 14. -/
def hashPassword (password : String) : String :=
  bcryptGenerateFromPassword password 14

/-- `helper.RecordingFilename(id)`.  Modelled from the spec (§3): the
`helper` package is not part of `src/`; the stored filename is derived
from the generated identifier, not from user input. -/
def recordingFilename (id : Nat) : String :=
  "recordings/" ++ toString id

/-- Largest value of `f` over a list (0 when empty); used to model the
store's auto-incremented primary keys. -/
def maxID {α : Type} (f : α → Nat) (l : List α) : Nat :=
  l.foldr (fun x m => max (f x) m) 0

/-- Primary key assigned by `db.Create` for a new `recordings` row:
auto-increment, hence strictly larger than every existing id. -/
def nextID (recs : List Recording) : Nat := maxID Recording.id recs + 1

/-- Primary key assigned by `db.Create` for a new `users` row. -/
def userNextID (users : List User) : Nat := maxID User.id users + 1

/-- `db.Where(&model.User{Email: email}).First(&user)` (gorm): a struct
condition ignores zero-valued fields, so an empty email drops the filter
and `First` returns the first row in primary-key order (the list order);
otherwise the first row with that email.  `none` means gorm found no row
and left the destination at its zero value. -/
def gormUserByEmail (users : List User) (email : String) : Option User :=
  if email == "" then users.head? else users.find? (fun u => u.email == email)

/-- `db.Where(&model.User{Token: token}).First(&user)` (gorm), with the
same zero-value rule on the struct condition. -/
def gormUserByToken (users : List User) (token : String) : Option User :=
  if token == "" then users.head? else users.find? (fun u => u.token == token)

/-- `getAllRecordingsByUserID` (src/main.go:249):
`db.Where(&model.Recording{UserID: userID}).Not("status = 0").Find(&recordings)`.
The struct condition ignores a zero `UserID` (gorm zero-value rule), so for
`userID = 0` only the raw `status = 0` exclusion applies. -/
def getAllRecordingsByUserID (recs : List Recording) (userID : Nat) : List Recording :=
  recs.filter (fun r => (userID == 0 || r.userID == userID) && r.status != 0)

/-- `getRecordingByID` (src/main.go:256): `db.First(&recording, id)` leaves
the zero value on a miss; an empty title (the zero value's) is the
not-found sentinel. -/
def getRecordingByID (recs : List Recording) (id : Nat) : Except String Recording :=
  let recording := (recs.find? (fun r => r.id == id)).getD zeroRecording
  if recording.title = "" then .error "Recording not found" else .ok recording

/-- `createRecording` (src/main.go:268): inserts a row with status 0 (Go
zero value of the unset `Status` field) and the auto-incremented id, and
returns it.  Failure of `db.Create` is injected by the caller
(`uploadRecording`'s `createErr`). -/
def createRecording (recs : List Recording) (userID : Nat)
    (title filename language : String) : Recording × List Recording :=
  let r : Recording := { id := nextID recs, userID := userID, title := title,
                         filename := filename, language := language, status := 0 }
  (r, recs ++ [r])

/-- `updateRecordingStatus` (src/main.go:275): re-reads the row with
`db.First(&recording, r.ID)`, sets its status and saves.  When no row
matches, the destination keeps its zero value (id 0) and `db.Save` falls
back to an insert with a fresh auto-incremented id. -/
def updateRecordingStatus (recs : List Recording) (rid status : Nat) : List Recording :=
  match recs.find? (fun x => x.id == rid) with
  | some rec => recs.map (fun x => if x.id == rid then { rec with status := status } else x)
  | none => recs ++ [{ zeroRecording with id := nextID recs, status := status }]

/-- `findUser` (src/main.go:286): gorm lookup by email struct condition,
then a bcrypt comparison against the (possibly zero-value) row; `none`
models the Go `nil` return. -/
def findUser (users : List User) (email password : String) : Option User :=
  let user := (gormUserByEmail users email).getD zeroUser
  if bcryptCompareHashAndPassword user.password password then some user else none

/-- Response of the `getRecording` handler. -/
inductive GetRecResp where
  /-- `c.AbortWithStatus(status)`. -/
  | abortStatus (status : Nat)
  /-- `c.AbortWithError(status, err)` with the error's message. -/
  | abortError (status : Nat) (msg : String)
  /-- `render(c, gin.H{"payload": recording}, "recording.html")`: a 200
  response carrying the recording (as JSON/XML/HTML per `Accept`). -/
  | render (r : Recording)
deriving Repr, DecidableEq

/-- `getRecording` handler (src/main.go:44).  The route carries the
`ensureLoggedIn` middleware, so the session user id is available as
`sessionUserID`; `recordingParam` is the `:recording_id` path parameter. -/
def getRecording (recs : List Recording) (sessionUserID : Nat)
    (recordingParam : String) : GetRecResp :=
  match parseUint32 recordingParam with
  | some recordingID =>
    match getRecordingByID recs recordingID with
    | .ok recording =>
      if sessionUserID = recording.userID then .render recording
      else .abortStatus 401
    | .error e => .abortError 404 e
  | none => .abortStatus 404

/-- The multipart form of `POST /recording/upload`: `title`, `language`,
and the `content` file's original filename (`none` when `c.FormFile`
fails, e.g. no file part was posted). -/
structure UploadReq where
  title : String
  language : String
  file : Option String
deriving Repr, DecidableEq

/-- Observable steps of the `uploadRecording` handler, in execution order;
the handler has no `return` after its `AbortWithError` calls, so steps can
follow an abort. -/
inductive UpEvent where
  /-- `c.AbortWithError(status, err)`. -/
  | abortWithError (status : Nat)
  /-- the nil file handle from the failed `c.FormFile` is dereferenced
  (`file.Filename`), crashing the handler. -/
  | nilDereference
  /-- `createRecording(userID, title, filename, language)` is invoked. -/
  | svcCreateRecording (title filename : String)
  /-- `c.SaveUploadedFile(file, localFilename)` is invoked. -/
  | saveFile (localFilename : String)
  /-- `updateRecordingStatus(r, 1)` is invoked. -/
  | svcUpdateStatus
  /-- `render(c, gin.H{"payload": r}, "submission-successful.html")`. -/
  | renderSuccess (r : Recording)
deriving Repr, DecidableEq

/-- `uploadRecording` handler (src/main.go:69), as the sequence of steps it
performs and the resulting `recordings` table.  `createErr`, `saveErr` and
`updateErr` inject failures of `createRecording`'s `db.Create`, of
`c.SaveUploadedFile` and of `updateRecordingStatus`'s `db.Save` (all
fallible externals).  Faithful to the missing `return` statements: after
every `AbortWithError` the handler keeps executing; on a `FormFile` error
it dereferences the nil file handle.  On a failed `db.Create` the row gets
no id (`r.ID` stays 0) and the table is unchanged. -/
def uploadRecording (recs : List Recording) (sessionUserID : Nat) (req : UploadReq)
    (createErr saveErr updateErr : Bool) : List UpEvent × List Recording :=
  match req.file with
  | none => ([.abortWithError 400, .nilDereference], recs)
  | some originalFilename =>
    let filename := filepathBase originalFilename
    let title := if req.title = "" then filename else req.title
    let r : Recording :=
      if createErr then
        { id := 0, userID := sessionUserID, title := title, filename := filename,
          language := req.language, status := 0 }
      else (createRecording recs sessionUserID title filename req.language).1
    let recs1 := if createErr then recs
      else (createRecording recs sessionUserID title filename req.language).2
    let evts1 := if createErr then [UpEvent.svcCreateRecording title filename,
                                    UpEvent.abortWithError 400]
      else [UpEvent.svcCreateRecording title filename]
    let localFilename := recordingFilename r.id
    let evts2 := if saveErr then [UpEvent.saveFile localFilename, UpEvent.abortWithError 400]
      else [UpEvent.saveFile localFilename]
    let recs2 := if updateErr then recs1 else updateRecordingStatus recs1 r.id 1
    let evts3 := if updateErr then [UpEvent.svcUpdateStatus, UpEvent.abortWithError 400]
      else [UpEvent.svcUpdateStatus, UpEvent.renderSuccess r]
    (evts1 ++ evts2 ++ evts3, recs2)

/-- Response of the `performLogin` handler. -/
inductive LoginResp where
  /-- `session.Set("user_id", ...); session.Save()` followed by the
  `login-successful.html` render: the only branch that writes the session. -/
  | success
  /-- `c.HTML(status, "login.html", ...)` with the given `ErrorTitle` and
  `ErrorMessage`; the session is untouched. -/
  | failureHTML (status : Nat) (errorTitle errorMessage : String)
deriving Repr, DecidableEq

/-- `performLogin` handler (src/main.go:119): lowercases the posted email,
looks the user up through `findUser`, then branches on `Status > 0`.
Returns the response together with the session's `user_id` slot (the
route's `ensureNotLoggedIn` middleware makes the incoming slot `none`, but
it is kept general). -/
def performLogin (users : List User) (session : Option Nat)
    (emailInput password : String) : LoginResp × Option Nat :=
  let email := goToLower emailInput
  match findUser users email password with
  | some user =>
    if user.status > 0 then (.success, some user.id)
    else (.failureHTML 400 "Login Failed"
            "Please check your mailbox and click the confirmation link", session)
  | none => (.failureHTML 400 "Login Failed" "Invalid credentials provided", session)

/-- Response of the `performConfirmation` handler. -/
inductive ConfirmResp where
  /-- `c.AbortWithError(status, err)` with the error's message. -/
  | abortError (status : Nat) (msg : String)
  /-- `render(c, gin.H{}, "confirmation.html")`. -/
  | confirmed
deriving Repr, DecidableEq

/-- `performConfirmation` handler (src/main.go:344): validates the token
shape with `uuid.Parse` (aborting 400 on a malformed token), looks the user
up by token (gorm struct condition), uses an empty email as the not-found
sentinel, then clears the token, sets status 1 and saves by primary key.
`db.Save` is modelled as succeeding (§5: the store provides atomic row
writes). -/
def performConfirmation (users : List User) (token : String) : ConfirmResp × List User :=
  if uuidParseOk token = false then (.abortError 400 "invalid UUID", users)
  else
    let user := (gormUserByToken users token).getD zeroUser
    if user.email = "" then (.abortError 400 "Invalid confirmation link", users)
    else
      let user2 := { user with token := "", status := 1 }
      (.confirmed, users.map (fun u => if u.id = user2.id then user2 else u))

/-- The error sites of `registerNewUser`, one per `errors.New` in the
source (the formatted inner messages come from externals and carry no
information the claims need). -/
inductive RegError where
  /-- "Could not hash password: %v" — unreachable in the model, since
  bcrypt with the valid cost 14 does not fail. -/
  | couldNotHash
  /-- "Could not create user: %v" — the store's uniqueness constraint on
  email rejected the insert. -/
  | couldNotCreateUser
  /-- "Could not send confirmation link: %v" — the confirmation message
  could not be dispatched (the spec's `DeliveryError` kind). -/
  | couldNotSendConfirmation
deriving Repr, DecidableEq

/-- `sendConfirmation` (src/main.go:318): re-reads the user by id, stores
the freshly generated token (`uuid.NewRandom`, modelled as the `newToken`
parameter), then dispatches the email (`helper.SendEmail`, not under
`src/`; its success is the `deliveryOk` parameter).  The token save happens
before — and is not undone by — a failed dispatch. -/
def sendConfirmation (users : List User) (userID : Nat) (newToken : String)
    (deliveryOk : Bool) : Except Unit Unit × List User :=
  let users2 := users.map (fun u => if u.id = userID then { u with token := newToken } else u)
  if deliveryOk then (.ok (), users2) else (.error (), users2)

/-- `registerNewUser` (src/main.go:298): hashes the password, inserts the
user row (status 0 and empty token are the Go zero values of the unset
fields; the insert fails on a duplicate email — modelled from the spec
§4.1, the uniqueness constraint living in the missing `model` package),
then calls `sendConfirmation`.  On success it returns its own local `user`
value, whose `Token` field was never set (`sendConfirmation` wrote the
token into its own re-read copy). -/
def registerNewUser (users : List User) (email password : String)
    (newToken : String) (deliveryOk : Bool) : Except RegError User × List User :=
  let hash := hashPassword password
  if users.any (fun u => u.email == email) then (.error .couldNotCreateUser, users)
  else
    let u : User := { id := userNextID users, email := email, password := hash,
                      token := "", status := 0 }
    match sendConfirmation (users ++ [u]) u.id newToken deliveryOk with
    | (.ok _, users2) => (.ok u, users2)
    | (.error _, users2) => (.error .couldNotSendConfirmation, users2)

/-- Response of the `register` handler. -/
inductive RegisterResp where
  /-- `render(c, gin.H{}, "register-successful.html")`. -/
  | success
  /-- `c.HTML(status, "register.html", ...)` with the failing error site. -/
  | failureHTML (status : Nat) (errorTitle : String) (err : RegError)
deriving Repr, DecidableEq

/-- `register` handler (src/main.go:168): lowercases the posted email and
delegates to `registerNewUser`. -/
def register (users : List User) (emailInput password : String)
    (newToken : String) (deliveryOk : Bool) : RegisterResp × List User :=
  let email := goToLower emailInput
  match registerNewUser users email password newToken deliveryOk with
  | (.ok _, users2) => (.success, users2)
  | (.error e, users2) => (.failureHTML 400 "Registration Failed" e, users2)

/-! ### General lemmas about the embedding -/

theorem le_maxID {α : Type} (f : α → Nat) {l : List α} {x : α} (hx : x ∈ l) :
    f x ≤ maxID f l := by
  induction l with
  | nil => cases hx
  | cons a t ih =>
    rcases List.mem_cons.mp hx with h | h
    · subst h; exact Nat.le_max_left _ _
    · exact Nat.le_trans (ih h) (Nat.le_max_right _ _)

theorem id_lt_nextID {recs : List Recording} {r : Recording} (h : r ∈ recs) :
    r.id < nextID recs :=
  Nat.lt_succ_of_le (le_maxID Recording.id h)

theorem id_lt_userNextID {users : List User} {u : User} (h : u ∈ users) :
    u.id < userNextID users :=
  Nat.lt_succ_of_le (le_maxID User.id h)

theorem map_eq_self_of {α : Type} {f : α → α} {l : List α} (h : ∀ x ∈ l, f x = x) :
    l.map f = l := by
  induction l with
  | nil => rfl
  | cons a t ih => simp_all

theorem find?_append_of_none {α : Type} {p : α → Bool} {l1 l2 : List α}
    (h : l1.find? p = none) : (l1 ++ l2).find? p = l2.find? p := by
  induction l1 with
  | nil => rfl
  | cons a t ih =>
    cases hpa : p a with
    | true => simp [List.find?_cons, hpa] at h
    | false =>
      simp only [List.find?_cons, hpa] at h
      simp only [List.cons_append, List.find?_cons, hpa]
      exact ih h

theorem dropWhile_head_false {α : Type} {p : α → Bool} {l : List α} {c : α} {t : List α}
    (h : l.dropWhile p = c :: t) : p c = false := by
  induction l with
  | nil => simp [List.dropWhile] at h
  | cons a s ih =>
    rw [List.dropWhile_cons] at h
    split at h
    · exact ih h
    · cases h; simp_all

theorem filepathBase_ne_empty (path : String) : filepathBase path ≠ "" := by
  unfold filepathBase
  split
  · decide
  · split
    · decide
    · rename_i hne
      rcases hcons : path.data.reverse.dropWhile (fun c => c == '/') with _ | ⟨c, t⟩
      · exact absurd hcons hne
      · have hc : (c == '/') = false := dropWhile_head_false (p := fun c => c == '/') hcons
        have hp : (c != '/') = true := by simp [bne, hc]
        rw [List.takeWhile_cons, if_pos hp]
        intro h
        have hd := congrArg String.data h
        simp at hd

theorem bcryptGenerateFromPassword_ne_password (password : String) (cost : Nat) :
    bcryptGenerateFromPassword password cost ≠ password := by
  intro h
  have hd := congrArg String.data h
  simp only [bcryptGenerateFromPassword, String.data_append] at hd
  have hlen := congrArg List.length hd
  simp [List.length_append] at hlen
  omega

theorem bcryptGenerateFromPassword_ne_empty (password : String) (cost : Nat) :
    bcryptGenerateFromPassword password cost ≠ "" := by
  intro h
  have hd := congrArg String.data h
  simp only [bcryptGenerateFromPassword, String.data_append] at hd
  have hlen := congrArg List.length hd
  simp [List.length_append] at hlen

theorem bcryptCompareHashAndPassword_zero_hash (password : String) :
    bcryptCompareHashAndPassword "" password = false := by
  unfold bcryptCompareHashAndPassword
  rw [beq_eq_false_iff_ne]
  exact fun h => bcryptGenerateFromPassword_ne_empty password 14 h.symm

theorem uuidParseOk_ne_empty {t : String} (h : uuidParseOk t = true) : t ≠ "" := by
  intro he
  subst he
  exact absurd h (by decide)

theorem updateRecordingStatus_fresh (recs : List Recording) (r : Recording) (s : Nat)
    (hfresh : ∀ x ∈ recs, x.id ≠ r.id) :
    updateRecordingStatus (recs ++ [r]) r.id s = recs ++ [{ r with status := s }] := by
  have hnone : recs.find? (fun x => x.id == r.id) = none :=
    List.find?_eq_none.mpr (fun x hx h => hfresh x hx (by simpa using h))
  unfold updateRecordingStatus
  rw [find?_append_of_none hnone, List.find?_cons_of_pos _ (by simp)]
  simp only []
  rw [List.map_append, map_eq_self_of (fun x hx => by simp [hfresh x hx])]
  simp

/-- The `recordings` table after a fully successful upload: the new row,
with the blank-title default applied and status raised to 1, appended to
the untouched table. -/
theorem uploadRecording_store (recs : List Recording) (uid : Nat) (t lang f : String) :
    (uploadRecording recs uid ⟨t, lang, some f⟩ false false false).2 =
      recs ++ [⟨nextID recs, uid, if t = "" then filepathBase f else t,
                filepathBase f, lang, 1⟩] := by
  unfold uploadRecording createRecording
  simp only [if_neg Bool.false_ne_true]
  have := updateRecordingStatus_fresh recs
    ⟨nextID recs, uid, if t = "" then filepathBase f else t, filepathBase f, lang, 0⟩ 1
    (fun x hx => Nat.ne_of_lt (id_lt_nextID hx))
  simpa using this

theorem performConfirmation_found (users : List User) (t : String) (u : User)
    (hparse : uuidParseOk t = true)
    (hfound : gormUserByToken users t = some u)
    (hemail : u.email ≠ "") :
    performConfirmation users t =
      (.confirmed, users.map
        (fun v => if v.id = u.id then { u with token := "", status := 1 } else v)) := by
  unfold performConfirmation
  rw [if_neg (by simp [hparse]), hfound]
  simp [hemail]

theorem performConfirmation_not_found (users : List User) (t : String)
    (hparse : uuidParseOk t = true)
    (hnone : gormUserByToken users t = none) :
    (performConfirmation users t).1 = .abortError 400 "Invalid confirmation link" := by
  unfold performConfirmation
  rw [if_neg (by simp [hparse]), hnone]
  simp [zeroUser]

/-! ### Claim theorems -/

/-- Claim C4: refuted on the code — this evaluation exhibits the bug.  The
spec says a handler maps a service failure to an HTTP status and "aborts
the request with no further processing", but `uploadRecording` has no
`return` after its `AbortWithError` calls: when `createRecording` fails on
an authenticated upload of `a.wav` with title `t`, the handler emits the
400 abort and then still writes the uploaded file to disk, still performs
the status-update database call — which, finding no row with the zero id,
inserts a junk status-1 row — and still renders the success page. -/
theorem C4_uploadRecording_processes_after_abort :
    uploadRecording [] 1 ⟨"t", "en", some "a.wav"⟩ true false false =
    ([.svcCreateRecording "t" "a.wav", .abortWithError 400, .saveFile "recordings/0",
      .svcUpdateStatus, .renderSuccess ⟨0, 1, "t", "a.wav", "en", 0⟩],
     [⟨1, 0, "", "", "", 1⟩]) := by decide

/-- Claim C6: on an upload whose posted title is empty, the created
recording's title is `filepath.Base` of the original filename (directory
components stripped — in particular `../../etc/evil.wav` yields
`evil.wav`), and a non-empty posted title is stored unchanged. -/
theorem C6_upload_blank_title_gets_basename (recs : List Recording) (uid : Nat)
    (t lang f : String) :
    (uploadRecording recs uid ⟨t, lang, some f⟩ false false false).2 =
      recs ++ [⟨nextID recs, uid, if t = "" then filepathBase f else t,
                filepathBase f, lang, 1⟩] ∧
    filepathBase "../../etc/evil.wav" = "evil.wav" := by
  exact ⟨uploadRecording_store recs uid t lang f, by decide⟩

/-- Claim C10 (implicit): every recording the upload handler creates has a
non-empty title — a blank posted title is replaced by `filepath.Base` of
the original filename, which is never empty — so `getRecordingByID`'s
empty-title "not found" sentinel never misclassifies such a recording:
looking its id up succeeds. -/
theorem C10_upload_title_nonempty_found (recs : List Recording) (uid : Nat)
    (t lang f : String) :
    (if t = "" then filepathBase f else t) ≠ "" ∧
    getRecordingByID (uploadRecording recs uid ⟨t, lang, some f⟩ false false false).2
        (nextID recs) =
      .ok ⟨nextID recs, uid, if t = "" then filepathBase f else t,
           filepathBase f, lang, 1⟩ := by
  have htitle : (if t = "" then filepathBase f else t) ≠ "" := by
    split
    · exact filepathBase_ne_empty f
    · assumption
  refine ⟨htitle, ?_⟩
  rw [uploadRecording_store]
  unfold getRecordingByID
  have hnone : recs.find? (fun r => r.id == nextID recs) = none :=
    List.find?_eq_none.mpr
      (fun x hx h => Nat.ne_of_lt (id_lt_nextID hx) (by simpa using h))
  rw [find?_append_of_none hnone, List.find?_cons_of_pos _ (by simp)]
  simp [htitle]

/-- Claim C1: for a stored recording `r` (its title non-empty, as for
every recording the application creates) and an authenticated requester,
`GET /recording/view/:recording_id` by a non-owner aborts with 401
Unauthorized, the same request by the owner renders `r`, and
`getRecordingByID` itself succeeds with `r` independently of any requester
— the ownership comparison lives in the handler, not in the lookup. -/
theorem C1_view_recording_ownership (recs : List Recording) (p : String) (rid : Nat)
    (r : Recording) (a b : Nat)
    (hp : parseUint32 p = some rid)
    (hr : recs.find? (fun x => x.id == rid) = some r)
    (ht : r.title ≠ "")
    (ha : a = r.userID) (hb : b ≠ r.userID) :
    getRecording recs a p = .render r ∧ getRecording recs b p = .abortStatus 401 ∧
      getRecordingByID recs rid = .ok r := by
  have hbyid : getRecordingByID recs rid = .ok r := by
    unfold getRecordingByID
    rw [hr]
    simp [ht]
  subst ha
  refine ⟨?_, ?_, hbyid⟩ <;>
  · unfold getRecording
    rw [hp]
    dsimp only
    rw [hbyid]
    simp [hb]

theorem C1_view_recording_ownership_witness :
    getRecording [⟨1, 1, "t", "f", "en", 1⟩] 1 "1" = .render ⟨1, 1, "t", "f", "en", 1⟩ ∧
    getRecording [⟨1, 1, "t", "f", "en", 1⟩] 2 "1" = .abortStatus 401 ∧
    getRecordingByID [⟨1, 1, "t", "f", "en", 1⟩] 1 = .ok ⟨1, 1, "t", "f", "en", 1⟩ :=
  C1_view_recording_ownership [⟨1, 1, "t", "f", "en", 1⟩] "1" 1 ⟨1, 1, "t", "f", "en", 1⟩ 1 2
    (by decide) (by decide) (by decide) (by decide) (by decide)

/-- Claim C2: counterexample to "for every user id u".  For the user id 0,
gorm's struct condition `Where(&Recording{UserID: 0})` ignores the
zero-valued field, so the owner filter is dropped: the query returns a
recording owned by user 1. -/
theorem C2_counterexample_owner_zero :
    getAllRecordingsByUserID [⟨1, 1, "t", "f", "en", 1⟩] 0 = [⟨1, 1, "t", "f", "en", 1⟩] ∧
    (⟨1, 1, "t", "f", "en", 1⟩ : Recording).userID ≠ 0 := by decide

/-- Claim C2 as amended: for every NON-ZERO user id `u`,
`getAllRecordingsByUserID` returns exactly the recordings whose owner is
`u` and whose status is not 0 (for u = 0 the gorm struct condition drops
the owner filter and only the status filter applies). -/
theorem C2_listByOwner_members (recs : List Recording) (u : Nat) (hu : u ≠ 0)
    (r : Recording) :
    r ∈ getAllRecordingsByUserID recs u ↔ r ∈ recs ∧ r.userID = u ∧ r.status ≠ 0 := by
  unfold getAllRecordingsByUserID
  simp [List.mem_filter, hu, and_assoc]

theorem C2_listByOwner_members_witness :
    ((1 : Nat) ≠ 0) ∧
    ((⟨1, 1, "t", "f", "en", 1⟩ : Recording) ∈
      getAllRecordingsByUserID [⟨1, 1, "t", "f", "en", 1⟩] 1) :=
  ⟨by decide,
    (C2_listByOwner_members [⟨1, 1, "t", "f", "en", 1⟩] 1 (by decide)
      ⟨1, 1, "t", "f", "en", 1⟩).mpr (by decide)⟩

/-- Claim C3: counterexample, exhibiting both failure modes of the claim
as stated.  (a) The claim's first half fails: `register` performs no email
validation, so registering with an empty posted email stores a user whose
email is the empty string with a valid token already saved; that token is
held by exactly one user, yet the FIRST confirmation call hits the
handler's `user.Email == ""` not-found sentinel and aborts 400 "Invalid
confirmation link" without clearing the token or setting status 1 (store
unchanged).  (b) The claim's second half fails for a holder with a
non-empty email: the first call confirms, but the second call with the
just-consumed token aborts with HTTP 400 Bad Request "Invalid confirmation
link" — the same status the handler uses for malformed input — not with a
not-found outcome (the spec's `NotFoundError` maps to 404). -/
theorem C3_counterexample_confirm :
    register [] "" "pw" "123e4567-e89b-12d3-a456-426614174000" true =
      (.success, [⟨1, "", bcryptGenerateFromPassword "pw" 14,
        "123e4567-e89b-12d3-a456-426614174000", 0⟩]) ∧
    performConfirmation [⟨1, "", bcryptGenerateFromPassword "pw" 14,
        "123e4567-e89b-12d3-a456-426614174000", 0⟩]
        "123e4567-e89b-12d3-a456-426614174000" =
      (.abortError 400 "Invalid confirmation link",
       [⟨1, "", bcryptGenerateFromPassword "pw" 14,
        "123e4567-e89b-12d3-a456-426614174000", 0⟩]) ∧
    (performConfirmation [⟨1, "a@x.com", "h", "123e4567-e89b-12d3-a456-426614174000", 0⟩]
        "123e4567-e89b-12d3-a456-426614174000").1 = .confirmed ∧
    (performConfirmation
        (performConfirmation [⟨1, "a@x.com", "h", "123e4567-e89b-12d3-a456-426614174000", 0⟩]
            "123e4567-e89b-12d3-a456-426614174000").2
        "123e4567-e89b-12d3-a456-426614174000").1 =
      .abortError 400 "Invalid confirmation link" := by decide

/-- Claim C3 as amended: for a well-formed token `t` held (up to the
primary key) only by user `u` — with no assumption on `u` — exactly one of
two things happens.  If `u`'s email is non-empty, confirmation is
single-use as claimed: the first call confirms `u` (clears the token, sets
status 1) and the second call with the same `t` fails, though with HTTP
400 Bad Request "Invalid confirmation link" rather than the claimed
NotFoundError.  If `u`'s email is empty (reachable, since registration
does not validate the email), already the first call fails with that same
400 abort, leaving the store — token and status included — unchanged. -/
theorem C3_confirm_single_use (users : List User) (t : String) (u : User)
    (hparse : uuidParseOk t = true)
    (hfind : users.find? (fun v => v.token == t) = some u)
    (honly : ∀ v ∈ users, v.token = t → v.id = u.id) :
    (u.email ≠ "" →
      (performConfirmation users t).1 = .confirmed ∧
      ({ u with token := "", status := 1 } : User) ∈ (performConfirmation users t).2 ∧
      (performConfirmation (performConfirmation users t).2 t).1 =
        .abortError 400 "Invalid confirmation link") ∧
    (u.email = "" →
      performConfirmation users t = (.abortError 400 "Invalid confirmation link", users)) := by
  have tne : t ≠ "" := uuidParseOk_ne_empty hparse
  have htok : gormUserByToken users t = some u := by
    unfold gormUserByToken
    rw [if_neg (by simpa using tne)]
    exact hfind
  refine ⟨fun hemail => ?_, fun hemail0 => ?_⟩
  case refine_2 =>
    unfold performConfirmation
    rw [if_neg (by simp [hparse]), htok]
    simp [hemail0]
  have h1 := performConfirmation_found users t u hparse htok hemail
  have hnone : ((users.map
      (fun v => if v.id = u.id then { u with token := "", status := 1 } else v)).find?
      (fun v => v.token == t)) = none := by
    refine List.find?_eq_none.mpr ?_
    intro v hv
    rcases List.mem_map.mp hv with ⟨w, hw, hfw⟩
    subst hfw
    by_cases hid : w.id = u.id
    · simp only [hid, if_pos rfl]
      simp only [beq_iff_eq]
      exact fun h => tne h.symm
    · simp only [if_neg hid, beq_iff_eq]
      intro hwt
      exact hid (honly w hw hwt)
  have htok2 : gormUserByToken (users.map
      (fun v => if v.id = u.id then { u with token := "", status := 1 } else v)) t = none := by
    unfold gormUserByToken
    rw [if_neg (by simpa using tne)]
    exact hnone
  refine ⟨by rw [h1], ?_, ?_⟩
  · rw [h1]
    have hu : u ∈ users := List.mem_of_find?_eq_some hfind
    have hmap := List.mem_map_of_mem
      (fun v => if v.id = u.id then { u with token := "", status := 1 } else v) hu
    simpa using hmap
  · rw [h1]
    exact performConfirmation_not_found _ t hparse htok2

theorem C3_confirm_single_use_witness :
    (("b@y.org" : String) ≠ "" →
      (performConfirmation [⟨2, "b@y.org", "h", "00000000-1111-2222-3333-444444444444", 0⟩]
          "00000000-1111-2222-3333-444444444444").1 = .confirmed ∧
      (⟨2, "b@y.org", "h", "", 1⟩ : User) ∈
        (performConfirmation [⟨2, "b@y.org", "h", "00000000-1111-2222-3333-444444444444", 0⟩]
          "00000000-1111-2222-3333-444444444444").2 ∧
      (performConfirmation
          (performConfirmation [⟨2, "b@y.org", "h", "00000000-1111-2222-3333-444444444444", 0⟩]
              "00000000-1111-2222-3333-444444444444").2
          "00000000-1111-2222-3333-444444444444").1 =
        .abortError 400 "Invalid confirmation link") ∧
    (("b@y.org" : String) = "" →
      performConfirmation [⟨2, "b@y.org", "h", "00000000-1111-2222-3333-444444444444", 0⟩]
          "00000000-1111-2222-3333-444444444444" =
        (.abortError 400 "Invalid confirmation link",
         [⟨2, "b@y.org", "h", "00000000-1111-2222-3333-444444444444", 0⟩])) :=
  C3_confirm_single_use [⟨2, "b@y.org", "h", "00000000-1111-2222-3333-444444444444", 0⟩]
    "00000000-1111-2222-3333-444444444444"
    ⟨2, "b@y.org", "h", "00000000-1111-2222-3333-444444444444", 0⟩
    (by decide) (by decide) (by decide)

/-- Claim C5: a registered but unconfirmed user (status 0) with correct
email and password cannot authenticate: the login handler leaves the
session slot untouched and responds with the distinct "check your mailbox"
message, not the generic "Invalid credentials provided" one (the `.success`
constructor is the only branch that writes the session). -/
theorem C5_login_unconfirmed_no_session (users : List User) (session : Option Nat)
    (emailInput password : String) (u : User)
    (hfind : gormUserByEmail users (goToLower emailInput) = some u)
    (hpw : bcryptCompareHashAndPassword u.password password = true)
    (hstatus : u.status = 0) :
    performLogin users session emailInput password =
      (.failureHTML 400 "Login Failed"
        "Please check your mailbox and click the confirmation link", session) := by
  unfold performLogin findUser
  dsimp only
  rw [hfind]
  simp [hpw, hstatus]

theorem C5_login_unconfirmed_no_session_witness :
    performLogin [⟨1, "a@x.com", bcryptGenerateFromPassword "pw" 14, "tok", 0⟩]
        none "A@x.com" "pw" =
      (.failureHTML 400 "Login Failed"
        "Please check your mailbox and click the confirmation link", none) :=
  C5_login_unconfirmed_no_session
    [⟨1, "a@x.com", bcryptGenerateFromPassword "pw" 14, "tok", 0⟩] none "A@x.com" "pw"
    ⟨1, "a@x.com", bcryptGenerateFromPassword "pw" 14, "tok", 0⟩
    (by decide) (by decide) (by decide)

theorem registerNewUser_store (users : List User) (email password newToken : String)
    (deliveryOk : Bool)
    (hnodup : users.any (fun u => u.email == email) = false) :
    registerNewUser users email password newToken deliveryOk =
      (if deliveryOk
        then .ok ⟨userNextID users, email, bcryptGenerateFromPassword password 14, "", 0⟩
        else .error .couldNotSendConfirmation,
       users ++ [⟨userNextID users, email, bcryptGenerateFromPassword password 14,
                  newToken, 0⟩]) := by
  have hmap : (users ++
      [(⟨userNextID users, email, bcryptGenerateFromPassword password 14, "", 0⟩ : User)]).map
      (fun v => if v.id = userNextID users then { v with token := newToken } else v) =
      users ++ [⟨userNextID users, email, bcryptGenerateFromPassword password 14,
                 newToken, 0⟩] := by
    rw [List.map_append, map_eq_self_of (fun x hx => by
      rw [if_neg (Nat.ne_of_lt (id_lt_userNextID hx))])]
    simp
  unfold registerNewUser hashPassword sendConfirmation
  rw [if_neg (by simp [hnodup])]
  dsimp only
  rw [hmap]
  cases deliveryOk <;> simp

/-- Claim C7: when the confirmation message cannot be dispatched after the
user row was created, `registerNewUser` returns the delivery-failure error
but the freshly inserted user row (with its token already saved) remains in
the store — registration is not atomic, there is no rollback. -/
theorem C7_register_delivery_failure_no_rollback (users : List User)
    (email password newToken : String)
    (hnodup : users.any (fun u => u.email == email) = false) :
    (registerNewUser users email password newToken false).1 =
      .error .couldNotSendConfirmation ∧
    (registerNewUser users email password newToken false).2 =
      users ++ [⟨userNextID users, email, bcryptGenerateFromPassword password 14,
                 newToken, 0⟩] := by
  rw [registerNewUser_store users email password newToken false hnodup]
  simp

theorem C7_register_delivery_failure_no_rollback_witness :
    (registerNewUser [] "a@x.com" "pw" "tok" false).1 = .error .couldNotSendConfirmation ∧
    (registerNewUser [] "a@x.com" "pw" "tok" false).2 =
      [⟨1, "a@x.com", bcryptGenerateFromPassword "pw" 14, "tok", 0⟩] :=
  C7_register_delivery_failure_no_rollback [] "a@x.com" "pw" "tok" (by decide)

/-- Claim C8: the user stored by the `register` handler has the posted
email normalized to lowercase, a bcrypt hash with work factor 14 (≥ 10) as
its password field — never the plaintext password — and status 0. -/
theorem C8_register_normalizes_and_hashes (users : List User)
    (emailInput password newToken : String)
    (hnodup : users.any (fun u => u.email == goToLower emailInput) = false) :
    (register users emailInput password newToken true).2 =
      users ++ [⟨userNextID users, goToLower emailInput,
                 bcryptGenerateFromPassword password 14, newToken, 0⟩] ∧
    bcryptGenerateFromPassword password 14 ≠ password ∧
    10 ≤ 14 := by
  refine ⟨?_, bcryptGenerateFromPassword_ne_password password 14, by decide⟩
  unfold register
  dsimp only
  rw [registerNewUser_store users (goToLower emailInput) password newToken true hnodup]
  simp

theorem C8_register_normalizes_and_hashes_witness :
    (register [] "A@X.com" "pw" "tok" true).2 =
      [⟨1, "a@x.com", bcryptGenerateFromPassword "pw" 14, "tok", 0⟩] ∧
    bcryptGenerateFromPassword "pw" 14 ≠ "pw" ∧
    10 ≤ 14 :=
  C8_register_normalizes_and_hashes [] "A@X.com" "pw" "tok" (by decide)

/-- Claim C9: counterexample to "every email that matches no stored user".
The store holds one user, `a@x.com`; the empty posted email matches no
stored user, yet gorm's struct condition ignores the zero-valued email
field, so the lookup returns the first row — and with that user's password
the login even SUCCEEDS, an outcome observably different from the
invalid-credentials outcome of an existing email with a wrong password. -/
theorem C9_counterexample_empty_email :
    performLogin [⟨1, "a@x.com", bcryptGenerateFromPassword "pw" 14, "", 1⟩] none "" "pw" =
      (.success, some 1) ∧
    ([⟨1, "a@x.com", bcryptGenerateFromPassword "pw" 14, "", 1⟩] : List User).all
      (fun u => u.email != "") = true ∧
    performLogin [⟨1, "a@x.com", bcryptGenerateFromPassword "pw" 14, "", 1⟩]
        none "b@x.com" "wrong" =
      (.failureHTML 400 "Login Failed" "Invalid credentials provided", none) ∧
    ((LoginResp.success, some 1) : LoginResp × Option Nat) ≠
      (.failureHTML 400 "Login Failed" "Invalid credentials provided", none) := by decide

/-- Claim C9 as amended: for every login attempt whose lowercased email is
NON-EMPTY and matches no stored user, the outcome (response and session)
is identical to that of an attempt with an existing email and a wrong
password — account existence does not leak through the login response.
(With an empty email the gorm struct condition drops the filter; see the
counterexample.) -/
theorem C9_login_no_existence_leak (users : List User) (session : Option Nat)
    (e1 p1 e2 p2 : String) (u : User)
    (h1ne : goToLower e1 ≠ "")
    (h1 : ∀ v ∈ users, v.email ≠ goToLower e1)
    (hfind2 : gormUserByEmail users (goToLower e2) = some u)
    (h2 : bcryptCompareHashAndPassword u.password p2 = false) :
    performLogin users session e1 p1 = performLogin users session e2 p2 ∧
    performLogin users session e1 p1 =
      (.failureHTML 400 "Login Failed" "Invalid credentials provided", session) := by
  have hfind1 : gormUserByEmail users (goToLower e1) = none := by
    unfold gormUserByEmail
    rw [if_neg (by simpa using h1ne)]
    exact List.find?_eq_none.mpr (fun v hv h => h1 v hv (by simpa using h))
  have hside1 : performLogin users session e1 p1 =
      (.failureHTML 400 "Login Failed" "Invalid credentials provided", session) := by
    unfold performLogin findUser
    dsimp only
    rw [hfind1]
    simp [zeroUser, bcryptCompareHashAndPassword_zero_hash]
  have hside2 : performLogin users session e2 p2 =
      (.failureHTML 400 "Login Failed" "Invalid credentials provided", session) := by
    unfold performLogin findUser
    dsimp only
    rw [hfind2]
    simp [h2]
  exact ⟨hside1.trans hside2.symm, hside1⟩

theorem C9_login_no_existence_leak_witness :
    performLogin [⟨1, "a@x.com", bcryptGenerateFromPassword "pw" 14, "", 1⟩] none "b@x.com" "x" =
      performLogin [⟨1, "a@x.com", bcryptGenerateFromPassword "pw" 14, "", 1⟩]
        none "A@x.com" "wrong" ∧
    performLogin [⟨1, "a@x.com", bcryptGenerateFromPassword "pw" 14, "", 1⟩] none "b@x.com" "x" =
      (.failureHTML 400 "Login Failed" "Invalid credentials provided", none) :=
  C9_login_no_existence_leak [⟨1, "a@x.com", bcryptGenerateFromPassword "pw" 14, "", 1⟩]
    none "b@x.com" "x" "A@x.com" "wrong"
    ⟨1, "a@x.com", bcryptGenerateFromPassword "pw" 14, "", 1⟩
    (by decide) (by decide) (by decide) (by decide)

end SimpleWebASR
